import Mathlib

/-
Verification development for the browser debug-protocol multiplexer in
src/MCPs/simple_webdebug (server.py, the richer variant, and simple_debug.py,
the simple variant).  The Python code manipulates decoded JSON frames, a
global message-id counter, a response dictionary keyed by frame identifier,
and per-category event buffers.  We embed JSON values, the dictionaries and
each relevant function shallowly and prove the specified properties.
-/

/-- A decoded JSON value, as produced by json.loads in the source. -/
inductive Json where
  | null
  | bool (b : Bool)
  | num (n : Int)
  | str (s : String)
  | arr (xs : List Json)
  | obj (fields : List (String × Json))
deriving Repr

mutual

/-- Structural equality on JSON values, the model of Python value equality. -/
def Json.beq : Json → Json → Bool
  | .null, .null => true
  | .bool a, .bool b => a == b
  | .num a, .num b => a == b
  | .str a, .str b => a == b
  | .arr xs, .arr ys => Json.beqList xs ys
  | .obj xs, .obj ys => Json.beqFields xs ys
  | _, _ => false

/-- Elementwise equality of JSON arrays. -/
def Json.beqList : List Json → List Json → Bool
  | [], [] => true
  | x :: xs, y :: ys => Json.beq x y && Json.beqList xs ys
  | _, _ => false

/-- Elementwise equality of JSON object field lists. -/
def Json.beqFields : List (String × Json) → List (String × Json) → Bool
  | [], [] => true
  | (k, v) :: xs, (k2, v2) :: ys => k == k2 && Json.beq v v2 && Json.beqFields xs ys
  | _, _ => false

end

mutual

theorem Json.beq_iff : ∀ a b : Json, Json.beq a b = true ↔ a = b
  | .null, b => by cases b <;> simp [Json.beq]
  | .bool a, b => by cases b <;> simp [Json.beq]
  | .num a, b => by cases b <;> simp [Json.beq]
  | .str a, b => by cases b <;> simp [Json.beq]
  | .arr xs, .null => by simp [Json.beq]
  | .arr xs, .bool b => by simp [Json.beq]
  | .arr xs, .num n => by simp [Json.beq]
  | .arr xs, .str s => by simp [Json.beq]
  | .arr xs, .arr ys => by simp [Json.beq, Json.beqList_iff xs ys]
  | .arr xs, .obj fs => by simp [Json.beq]
  | .obj fs, .null => by simp [Json.beq]
  | .obj fs, .bool b => by simp [Json.beq]
  | .obj fs, .num n => by simp [Json.beq]
  | .obj fs, .str s => by simp [Json.beq]
  | .obj fs, .arr ys => by simp [Json.beq]
  | .obj fs, .obj gs => by simp [Json.beq, Json.beqFields_iff fs gs]

theorem Json.beqList_iff : ∀ xs ys : List Json, Json.beqList xs ys = true ↔ xs = ys
  | [], [] => by simp [Json.beqList]
  | [], y :: ys => by simp [Json.beqList]
  | x :: xs, [] => by simp [Json.beqList]
  | x :: xs, y :: ys => by
      simp [Json.beqList, Json.beq_iff x y, Json.beqList_iff xs ys]

theorem Json.beqFields_iff :
    ∀ xs ys : List (String × Json), Json.beqFields xs ys = true ↔ xs = ys
  | [], [] => by simp [Json.beqFields]
  | [], y :: ys => by simp [Json.beqFields]
  | x :: xs, [] => by simp [Json.beqFields]
  | (k, v) :: xs, (k2, v2) :: ys => by
      simp [Json.beqFields, Json.beq_iff v v2, Json.beqFields_iff xs ys, and_assoc]

end

instance : DecidableEq Json := fun a b => decidable_of_iff _ (Json.beq_iff a b)

/-- Field lookup on a JSON object: the model of Python dict.get(key) for the
decoded frames (first binding wins, matching dict key uniqueness). -/
def Json.getField : Json → String → Option Json
  | .obj fs, k => fs.lookup k
  | _, _ => none

/-- Membership test, the model of the Python expression key in data. -/
def Json.hasKey (j : Json) (k : String) : Bool := (j.getField k).isSome

/-- Python dict.get(key, default). -/
def Json.getD (j : Json) (k : String) (d : Json) : Json := (j.getField k).getD d

/-- The empty JSON object, the default in response.get with a dict default. -/
def Json.emptyObj : Json := .obj []

/-- Python truthiness of a JSON value, as used by the source in
conditions such as if request_id. -/
def Json.truthy : Json → Bool
  | .null => false
  | .bool b => b
  | .num n => n != 0
  | .str s => s ≠ ""
  | .arr xs => xs ≠ []
  | .obj fs => fs ≠ []

/-- Assign one key of a JSON object field list: overwrite in place when the
key is present (keeping its position, as CPython dicts do), append otherwise. -/
def Json.setField : List (String × Json) → String → Json → List (String × Json)
  | [], k, v => [(k, v)]
  | (k2, v2) :: rest, k, v =>
      if k = k2 then (k2, v) :: rest else (k2, v2) :: Json.setField rest k v

/-- Python dict.update(other): assign the bindings of other in order. -/
def Json.updateFields (fs kvs : List (String × Json)) : List (String × Json) :=
  kvs.foldl (fun acc kv => Json.setField acc kv.1 kv.2) fs

/-- dict.update lifted to JSON values; non-objects are returned unchanged
(the source only ever updates dict records). -/
def Json.update (j : Json) (kvs : List (String × Json)) : Json :=
  match j with
  | .obj fs => .obj (Json.updateFields fs kvs)
  | other => other

/-- A Python dict keyed by JSON values (the response map and the per-request
merge map in the source).  Represented as an association list in insertion
order, since CPython dicts preserve insertion order. -/
abbrev JDict (α : Type) := List (Json × α)

/-- Dict lookup by key equality. -/
def dlookup {α : Type} : JDict α → Json → Option α
  | [], _ => none
  | (k2, v) :: rest, k => if k = k2 then some v else dlookup rest k

/-- Python key in dict. -/
def dmem {α : Type} (m : JDict α) (k : Json) : Bool := (dlookup m k).isSome

/-- Python dict assignment d[k] = v: overwrite in place keeping the original
position when the key exists, append otherwise. -/
def dset {α : Type} : JDict α → Json → α → JDict α
  | [], k, v => [(k, v)]
  | (k2, v2) :: rest, k, v =>
      if k = k2 then (k2, v) :: rest else (k2, v2) :: dset rest k v

/-- A Python dict keyed by strings (the event store, keyed by category). -/
abbrev SDict (α : Type) := List (String × α)

/-- String-keyed dict lookup. -/
def slookup {α : Type} : SDict α → String → Option α
  | [], _ => none
  | (k2, v) :: rest, k => if k = k2 then some v else slookup rest k

/-- String-keyed dict assignment, in-place overwrite or append. -/
def sset {α : Type} : SDict α → String → α → SDict α
  | [], k, v => [(k, v)]
  | (k2, v2) :: rest, k, v =>
      if k = k2 then (k2, v) :: rest else (k2, v2) :: sset rest k v

theorem dlookup_dset_self {α : Type} (m : JDict α) (k : Json) (v : α) :
    dlookup (dset m k v) k = some v := by
  induction m with
  | nil => simp [dset, dlookup]
  | cons hd tl ih =>
      obtain ⟨k2, v2⟩ := hd
      by_cases h : k = k2 <;> simp [dset, dlookup, h, ih]

theorem dlookup_dset_ne {α : Type} (m : JDict α) (k k2 : Json) (v : α)
    (h : k2 ≠ k) : dlookup (dset m k v) k2 = dlookup m k2 := by
  induction m with
  | nil => simp [dset, dlookup, h]
  | cons hd tl ih =>
      obtain ⟨k3, v3⟩ := hd
      by_cases hk : k = k3
      · subst hk
        simp [dset, dlookup, h]
      · by_cases hk2 : k2 = k3 <;> simp [dset, dlookup, hk, hk2, ih]

theorem slookup_sset_self {α : Type} (m : SDict α) (k : String) (v : α) :
    slookup (sset m k v) k = some v := by
  induction m with
  | nil => simp [sset, slookup]
  | cons hd tl ih =>
      obtain ⟨k2, v2⟩ := hd
      by_cases h : k = k2 <;> simp [sset, slookup, h, ih]

theorem slookup_sset_ne {α : Type} (m : SDict α) (k k2 : String) (v : α)
    (h : k2 ≠ k) : slookup (sset m k v) k2 = slookup m k2 := by
  induction m with
  | nil => simp [sset, slookup, h]
  | cons hd tl ih =>
      obtain ⟨k3, v3⟩ := hd
      by_cases hk : k = k3
      · subst hk
        simp [sset, slookup, h]
      · by_cases hk2 : k2 = k3 <;> simp [sset, slookup, hk, hk2, ih]

/-- The last n elements of a list, the model of the Python slice with a
negative start index used for event-buffer truncation. -/
def lastN {α : Type} (n : Nat) (l : List α) : List α := l.drop (l.length - n)

/-- The retention cap on each event-category buffer (server.py line 59). -/
def retentionCap : Nat := 1000

/-- One event-buffer step of cdp_listener (server.py lines 57-60): append the
frame, then, if the bucket now exceeds the cap, keep only the last 1000. -/
def stepBuf (bucket : List Json) (data : Json) : List Json :=
  let b := bucket ++ [data]
  if b.length > retentionCap then b.drop (b.length - retentionCap) else b

/-- The first segment of a method name, Python method.split(".")[0]
(server.py line 54). -/
def splitCategory (method : String) : String := (method.splitOn ".").headD ""

/-- Where one decoded inbound frame is routed by the richer listener
(cdp_listener, server.py lines 50-61).  A frame with an id goes to the
response map; otherwise a frame with a string method goes to the event store;
a method that is not a string raises inside the loop body and the frame is
dropped with an error log; a frame with neither key falls through the
if/elif silently. -/
inductive Route where
  | toCorrelator (idVal : Json)
  | toDemux (category : String)
  | droppedNonString
  | droppedSilent
deriving DecidableEq, Repr

/-- The routing decision of cdp_listener (server.py lines 50-61). -/
def routeFrame (data : Json) : Route :=
  if data.hasKey "id" then .toCorrelator (data.getD "id" .null)
  else if data.hasKey "method" then
    match data.getField "method" with
    | some (.str m) => .toDemux (splitCategory m)
    | _ => .droppedNonString
  else .droppedSilent

/-- How many log calls cdp_listener makes for one decoded frame: one debug
log per stored event (line 61), one error log per in-body exception
(lines 64-65), and none for stored responses or frames with neither key. -/
def serverFrameLogCount (data : Json) : Nat :=
  match routeFrame data with
  | .toDemux _ => 1
  | .droppedNonString => 1
  | _ => 0

/-- The routing decision of the simple-variant listener
(listen_for_messages, simple_debug.py lines 62-68): only frames with an id
are stored; every other frame is ignored, there is no event store. -/
def simpleRouteFrame (data : Json) : Route :=
  if data.hasKey "id" then .toCorrelator (data.getD "id" .null)
  else .droppedSilent

/-- The category under which a frame is recorded as an event by the richer
listener, when it is recorded at all. -/
def eventCategory (data : Json) : Option String :=
  match routeFrame data with
  | .toDemux cat => some cat
  | _ => none

/-- Record one event frame in the event store (server.py lines 55-60):
default the bucket to empty, append, truncate to the cap. -/
def recordEvent (events : SDict (List Json)) (cat : String) (data : Json) :
    SDict (List Json) :=
  sset events cat (stepBuf ((slookup events cat).getD []) data)

/-- The module-level mutable state of server.py: _cdp_message_id,
_cdp_responses and _cdp_events (lines 20-22). -/
structure ServerState where
  msgId : Nat
  responses : JDict Json
  events : SDict (List Json)
deriving Repr

/-- Processing of one decoded frame by cdp_listener (server.py lines 48-65). -/
def cdp_listener_step (s : ServerState) (data : Json) : ServerState :=
  match routeFrame data with
  | .toCorrelator idVal => { s with responses := dset s.responses idVal data }
  | .toDemux cat => { s with events := recordEvent s.events cat data }
  | _ => s

/-- The richer listener loop over a finite inbound prefix
(cdp_listener, server.py lines 45-65). -/
def cdp_listener (s : ServerState) (frames : List Json) : ServerState :=
  frames.foldl cdp_listener_step s

/-- Processing of one decoded frame by the simple-variant listener
(listen_for_messages, simple_debug.py lines 62-68). -/
def listen_step (m : JDict Json) (data : Json) : JDict Json :=
  if data.hasKey "id" then dset m (data.getD "id" .null) data else m

/-- The simple-variant listener loop over a finite inbound prefix. -/
def listen_for_messages (m : JDict Json) (frames : List Json) : JDict Json :=
  frames.foldl listen_step m

/-- The state of server.py with a fresh counter and empty stores. -/
def initState (c : Nat) : ServerState := ⟨c, [], []⟩

/-- The outcome of settling one response frame in the richer variant
(send_cdp_command, server.py lines 38-42). -/
inductive CdpOutcome where
  | ok (result : Json)
  | remoteError (msg : Json)
  | pyError
deriving DecidableEq, Repr

/-- Settling policy of the richer variant (server.py lines 40-42): an error
key raises RuntimeError carrying the message field of the error object
(indexing that raises its own KeyError or TypeError when the error object has
no message field, modelled as pyError); otherwise the call returns the result
payload, defaulting to the empty object. -/
def settleResponse (response : Json) : CdpOutcome :=
  match response.getField "error" with
  | some e =>
      match e.getField "message" with
      | some m => .remoteError m
      | none => .pyError
  | none => .ok (response.getD "result" Json.emptyObj)

/-- Settling policy of the simple variant (simple_debug.py line 43): the
result payload is returned unconditionally, the error key is never
inspected. -/
def settleSimple (response : Json) : Json := response.getD "result" Json.emptyObj

/-- Resolution of a pending command against the response map in the richer
variant: the waiting loop (server.py lines 35-38) exits only when the
commands own identifier is a key of _cdp_responses, pops that entry and
settles it; none models a still-suspended caller. -/
def resolveCommand (m : JDict Json) (id : Nat) : Option CdpOutcome :=
  (dlookup m (.num id)).map settleResponse

/-- The polling loop shared by both variants: at iteration k the caller
checks whether its identifier is a key of the response map as it stands at
that instant (mAt k), and otherwise sleeps and retries.  fuel is the number
of iterations observed; none means the caller is still waiting after fuel
iterations. -/
def pollLoop (mAt : Nat → JDict Json) (id : Nat) : Nat → Nat → Option Json
  | _, 0 => none
  | k, fuel + 1 =>
      match dlookup (mAt k) (.num id) with
      | some r => some r
      | none => pollLoop mAt id (k + 1) fuel

/-- The simple-variant wait (simple_debug.py lines 40-46): poll exactly 100
times, then raise TimeoutError; a found response is settled without any
error-key inspection. -/
def simpleWait (mAt : Nat → JDict Json) (id : Nat) : Except String Json :=
  match pollLoop mAt id 0 100 with
  | some r => .ok (settleSimple r)
  | none => .error "TimeoutError"

/-- The identifiers allocated by n consecutive send_cdp_command calls
starting from counter value c (server.py lines 27-29 and simple_debug.py
lines 31-32: pre-increment then read). -/
def allocIds (c n : Nat) : List Nat := (List.range n).map (fun k => c + k + 1)

/-- The outbound command envelope (server.py line 30). -/
def commandEnvelope (id : Nat) (method : String) (params : Json) : Json :=
  .obj [("id", .num id), ("method", .str method), ("params", params)]

/-- The session-scoped outbound envelope built by send_page_command
(server.py lines 161-166). -/
def pageCommandEnvelope (sessionId : Json) (id : Nat) (method : String)
    (params : Json) : Json :=
  .obj [("sessionId", sessionId), ("id", .num id), ("method", .str method),
        ("params", params)]

/-- Comparison of the method field of an event with a method name, the model
of event.get("method") == name (get defaults to None). -/
def methodIs (e : Json) (m : String) : Bool := e.getD "method" .null = Json.str m

/-- The record built for a Network.requestWillBeSent event
(get_network_requests, server.py lines 464-472). -/
def reqRecord (params rid : Json) : Json :=
  .obj [("requestId", rid),
        ("url", (params.getD "request" Json.emptyObj).getD "url" (.str "")),
        ("method", (params.getD "request" Json.emptyObj).getD "method" (.str "")),
        ("headers", (params.getD "request" Json.emptyObj).getD "headers" Json.emptyObj),
        ("timestamp", params.getD "timestamp" (.num 0)),
        ("status", .str "pending"),
        ("type", params.getD "type" (.str ""))]

/-- The fields merged into a record by a Network.responseReceived event
(get_network_requests, server.py lines 478-488). -/
def respUpdate (params : Json) : List (String × Json) :=
  [("status", .str "received"),
   ("statusCode", (params.getD "response" Json.emptyObj).getD "status" (.num 0)),
   ("statusText", (params.getD "response" Json.emptyObj).getD "statusText" (.str "")),
   ("mimeType", (params.getD "response" Json.emptyObj).getD "mimeType" (.str "")),
   ("responseHeaders", (params.getD "response" Json.emptyObj).getD "headers" Json.emptyObj)]

/-- One step of the network-request merge loop (get_network_requests,
server.py lines 459-488). -/
def netStep (request_map : JDict Json) (event : Json) : JDict Json :=
  if methodIs event "Network.requestWillBeSent" then
    let params := event.getD "params" Json.emptyObj
    let rid := params.getD "requestId" .null
    if rid.truthy then dset request_map rid (reqRecord params rid)
    else request_map
  else if methodIs event "Network.responseReceived" then
    let params := event.getD "params" Json.emptyObj
    let rid := params.getD "requestId" .null
    if rid.truthy then
      match dlookup request_map rid with
      | some r => dset request_map rid (r.update (respUpdate params))
      | none => request_map
    else request_map
  else request_map

/-- get_network_requests (server.py lines 448-493): when the Network
category was never created return an empty view, otherwise fold the merge
step over the recorded Network events in arrival order and list the merged
records in insertion order (list of dict values). -/
def get_network_requests (events : SDict (List Json)) : Json :=
  match slookup events "Network" with
  | none => .obj [("requests", .arr [])]
  | some bucket =>
      .obj [("requests", .arr ((bucket.foldl netStep []).map Prod.snd))]

/-- The record built for one Console.messageAdded event
(get_console_logs, server.py lines 366-374). -/
def consoleLogEntry (event : Json) : Json :=
  let params := event.getD "params" Json.emptyObj
  let msg := params.getD "message" Json.emptyObj
  .obj [("timestamp", params.getD "timestamp" (.num 0)),
        ("level", msg.getD "level" (.str "info")),
        ("text", msg.getD "text" (.str "")),
        ("url", msg.getD "url" (.str "")),
        ("line", msg.getD "line" (.num 0)),
        ("source", msg.getD "source" (.str ""))]

/-- get_console_logs (server.py lines 358-379): when the Console category
was never created return an empty view, otherwise list the recorded
Console.messageAdded events in arrival order. -/
def get_console_logs (events : SDict (List Json)) : Json :=
  match slookup events "Console" with
  | none => .obj [("logs", .arr [])]
  | some bucket =>
      .obj [("logs", .arr ((bucket.filter
        (fun e => methodIs e "Console.messageAdded")).map consoleLogEntry))]

/-- get_console_logs seen as an operation on the whole module state: it
reads _cdp_events and assigns no module-level variable, so the state after
the call is the state before it. -/
def get_console_logs_call (s : ServerState) : Json × ServerState :=
  (get_console_logs s.events, s)

/-- get_network_requests seen as an operation on the whole module state: it
reads _cdp_events and assigns no module-level variable. -/
def get_network_requests_call (s : ServerState) : Json × ServerState :=
  (get_network_requests s.events, s)

/-- One tab record per page target in the richer variant (list_tabs,
server.py lines 130-139): direct indexing, so a missing field is a KeyError
(modelled as none); note the record carries a type field. -/
def tabsOfServer : List Json → Option (List Json)
  | [] => some []
  | t :: rest => do
      let ty ← t.getField "type"
      if ty = Json.str "page" then
        let i ← t.getField "targetId"
        let ti ← t.getField "title"
        let u ← t.getField "url"
        let tabs ← tabsOfServer rest
        pure (Json.obj [("id", i), ("title", ti), ("url", u), ("type", ty)] :: tabs)
      else tabsOfServer rest

/-- One tab record per page target in the simple variant (list_tabs,
simple_debug.py lines 87-91): same filter, no type field in the record. -/
def tabsOfSimple : List Json → Option (List Json)
  | [] => some []
  | t :: rest => do
      let ty ← t.getField "type"
      if ty = Json.str "page" then
        let i ← t.getField "targetId"
        let ti ← t.getField "title"
        let u ← t.getField "url"
        let tabs ← tabsOfSimple rest
        pure (Json.obj [("id", i), ("title", ti), ("url", u)] :: tabs)
      else tabsOfSimple rest

/-- targets_result.get("targetInfos", []) followed by iteration: a
non-array value would fail iteration, modelled as none. -/
def targetInfosOf (result : Json) : Option (List Json) :=
  match result.getD "targetInfos" (.arr []) with
  | .arr l => some l
  | _ => none

/-- The richer-variant list_tabs pipeline on a connected transport
(server.py lines 119-140): starting from a fresh state, Target.getTargets is
allocated identifier 1; the listener processes the inbound frames; the call
resolves from the entry stored under its own identifier, settles it, and
builds the tab list; none models a crash or a still-waiting caller. -/
def list_tabs_server (inbound : List Json) : Option Json :=
  let s := cdp_listener (initState 1) inbound
  match dlookup s.responses (.num 1) with
  | none => none
  | some resp =>
      match settleResponse resp with
      | .ok result =>
          (targetInfosOf result).bind fun infos =>
            (tabsOfServer infos).map fun tabs => Json.obj [("tabs", .arr tabs)]
      | _ => none

/-- The simple-variant list_tabs pipeline (simple_debug.py lines 72-94):
same identifier allocation, listener without an event store, settling
without error inspection. -/
def list_tabs_simple (inbound : List Json) : Option Json :=
  let m := listen_for_messages [] inbound
  match dlookup m (.num 1) with
  | none => none
  | some resp =>
      (targetInfosOf (settleSimple resp)).bind fun infos =>
        (tabsOfSimple infos).map fun tabs => Json.obj [("tabs", .arr tabs)]

/-- The resolution of one sequentially issued command as seen by
get_tab_content: the k-th command either returns a result payload or raises
(RuntimeError from a remote error, or a connection failure). -/
inductive CmdResult where
  | ok (result : Json)
  | err (msg : String)
deriving DecidableEq, Repr

/-- The JSON error payload returned by the except branches of
get_tab_content. -/
def errOut (m : String) : Json := .obj [("error", .str m)]

/-- get_tab_content (server.py lines 182-220) as a trace function: given the
resolution of each sequentially issued command, it returns the list of
commands actually sent (method and params, in order) and the JSON payload
returned to the caller.  Command 0 is the attach issued by
create_tab_session (lines 150-155); commands 1 and 2 are the session-scoped
body; command 3 is the detach (line 205).  Any raise jumps to the except
branches (lines 211-220), which return an error payload without sending
anything further. -/
def get_tab_content_trace (oracle : Nat → CmdResult) (targetId : String) :
    List (String × Json) × Json :=
  let attach := ("Target.attachToTarget",
    Json.obj [("targetId", .str targetId), ("flatten", .bool true)])
  let commErr := fun (m : String) =>
    errOut ("Error communicating with Chrome for tab " ++ targetId ++ ": " ++ m)
  let unexpectedErr :=
    errOut ("An unexpected error occurred processing tab " ++ targetId ++ ".")
  match oracle 0 with
  | .err m => ([attach], commErr m)
  | .ok sessionInfo =>
      match sessionInfo.getField "sessionId" with
      | none => ([attach], unexpectedErr)
      | some sid =>
          let getDoc := ("DOM.getDocument", Json.obj [("depth", .num 1)])
          match oracle 1 with
          | .err m => ([attach, getDoc], commErr m)
          | .ok doc =>
              match (doc.getField "root").bind (fun r => r.getField "nodeId") with
              | none => ([attach, getDoc], unexpectedErr)
              | some nodeId =>
                  let getHtml := ("DOM.getOuterHTML", Json.obj [("nodeId", nodeId)])
                  match oracle 2 with
                  | .err m => ([attach, getDoc, getHtml], commErr m)
                  | .ok html =>
                      let detach := ("Target.detachFromTarget",
                        Json.obj [("sessionId", sid)])
                      match oracle 3 with
                      | .err m => ([attach, getDoc, getHtml, detach], commErr m)
                      | .ok _ =>
                          ([attach, getDoc, getHtml, detach],
                           Json.obj [("targetId", .str targetId),
                             ("outerHTML", html.getD "outerHTML" (.str ""))])

/-- The lifespan state of server.py: whether the listener task is running,
whether the websocket is open, and the module-level stores. -/
structure LifespanState where
  listenerRunning : Bool
  wsOpen : Bool
  st : ServerState
deriving Repr

/-- The shutdown sequence of app_lifespan (server.py lines 91-107): cancel
the listener task and await its cancellation, then close the websocket.  No
other statement runs: in particular _cdp_responses is not touched, and no
pending entry is resolved with any failure value. -/
def app_lifespan_shutdown (l : LifespanState) : LifespanState :=
  { l with listenerRunning := false, wsOpen := false }

/-- A lifespan state in which one command (identifier 1) has been allocated
and sent but no response frame for it has arrived. -/
def pendingLifespanState : LifespanState := ⟨true, true, initState 1⟩

theorem routeFrame_of_id (g w : Json) (hid : g.getField "id" = some w) :
    routeFrame g = .toCorrelator w := by
  simp [routeFrame, Json.hasKey, Json.getD, hid]

theorem dlookup_cdp_listener_step (s : ServerState) (g v : Json) :
    dlookup (cdp_listener_step s g).responses v =
      if g.getField "id" = some v then some g else dlookup s.responses v := by
  cases hid : g.getField "id" with
  | some w =>
      have hr : routeFrame g = .toCorrelator w := routeFrame_of_id g w hid
      by_cases hv : w = v
      · subst hv
        simp [cdp_listener_step, hr, hid, dlookup_dset_self]
      · simp [cdp_listener_step, hr, hid, hv,
          dlookup_dset_ne _ _ _ _ (fun h => hv h.symm)]
  | none =>
      cases hm : g.getField "method" with
      | none => simp [cdp_listener_step, routeFrame, Json.hasKey, hid, hm]
      | some mv =>
          cases mv <;>
            simp [cdp_listener_step, routeFrame, Json.hasKey, hid, hm, recordEvent]

theorem dlookup_cdp_listener (frames : List Json) :
    ∀ (s : ServerState) (v : Json),
    dlookup (cdp_listener s frames).responses v =
      frames.foldl (fun acc g => if g.getField "id" = some v then some g else acc)
        (dlookup s.responses v) := by
  induction frames with
  | nil => intro s v; rfl
  | cons g rest ih =>
      intro s v
      have h1 : cdp_listener s (g :: rest) = cdp_listener (cdp_listener_step s g) rest := rfl
      rw [h1, ih, List.foldl_cons, dlookup_cdp_listener_step]

theorem dlookup_listen_step (m : JDict Json) (g v : Json) :
    dlookup (listen_step m g) v =
      if g.getField "id" = some v then some g else dlookup m v := by
  cases hid : g.getField "id" with
  | some w =>
      have hk : g.hasKey "id" = true := by simp [Json.hasKey, hid]
      by_cases hv : w = v
      · subst hv
        simp [listen_step, hk, Json.getD, hid, dlookup_dset_self]
      · simp [listen_step, hk, Json.getD, hid, hv,
          dlookup_dset_ne _ _ _ _ (fun h => hv h.symm)]
  | none =>
      have hk : g.hasKey "id" = false := by simp [Json.hasKey, hid]
      simp [listen_step, hk, hid]

theorem dlookup_listen_for_messages (frames : List Json) :
    ∀ (m : JDict Json) (v : Json),
    dlookup (listen_for_messages m frames) v =
      frames.foldl (fun acc g => if g.getField "id" = some v then some g else acc)
        (dlookup m v) := by
  induction frames with
  | nil => intro m v; rfl
  | cons g rest ih =>
      intro m v
      have h1 : listen_for_messages m (g :: rest)
          = listen_for_messages (listen_step m g) rest := rfl
      rw [h1, ih, List.foldl_cons, dlookup_listen_step]

theorem foldl_respChoice_stay (v : Json) :
    ∀ (rest : List Json) (f : Json),
      (∀ g ∈ rest, g.getField "id" = some v → g = f) →
      rest.foldl (fun a g => if g.getField "id" = some v then some g else a)
        (some f) = some f := by
  intro rest
  induction rest with
  | nil => intro f _; rfl
  | cons g tail ih =>
      intro f huniq
      by_cases hg : g.getField "id" = some v
      · have hgf : g = f := huniq g (List.mem_cons_self g tail) hg
        subst hgf
        simp only [List.foldl_cons, if_pos hg]
        exact ih g (fun g2 h2 hp => huniq g2 (List.mem_cons_of_mem g h2) hp)
      · simp only [List.foldl_cons, if_neg hg]
        exact ih f (fun g2 h2 hp => huniq g2 (List.mem_cons_of_mem g h2) hp)

theorem foldl_respChoice_eq (v : Json) :
    ∀ (frames : List Json) (acc : Option Json) (f : Json),
      f ∈ frames → f.getField "id" = some v →
      (∀ g ∈ frames, g.getField "id" = some v → g = f) →
      frames.foldl (fun a g => if g.getField "id" = some v then some g else a)
        acc = some f := by
  intro frames
  induction frames with
  | nil => intro acc f h; cases h
  | cons g rest ih =>
      intro acc f hmem hf huniq
      rcases List.mem_cons.mp hmem with hgf | hmem2
      · subst hgf
        simp only [List.foldl_cons, if_pos hf]
        exact foldl_respChoice_stay v rest f
          (fun g2 h2 hp => huniq g2 (List.mem_cons_of_mem f h2) hp)
      · by_cases hg : g.getField "id" = some v
        · have hgf : g = f := huniq g (List.mem_cons_self g rest) hg
          subst hgf
          simp only [List.foldl_cons, if_pos hg]
          exact foldl_respChoice_stay v rest g
            (fun g2 h2 hp => huniq g2 (List.mem_cons_of_mem g h2) hp)
        · simp only [List.foldl_cons, if_neg hg]
          exact ih acc f hmem2 hf
            (fun g2 h2 hp => huniq g2 (List.mem_cons_of_mem g h2) hp)

theorem pollLoop_none_of_absent (mAt : Nat → JDict Json) (id : Nat)
    (h : ∀ k, dlookup (mAt k) (.num id) = none) :
    ∀ fuel k, pollLoop mAt id k fuel = none := by
  intro fuel
  induction fuel with
  | zero => intro k; rfl
  | succ n ih =>
      intro k
      simp [pollLoop, h k, ih (k + 1)]

theorem lastN_length_le {α : Type} (n : Nat) (l : List α) :
    (lastN n l).length ≤ n := by
  simp only [lastN, List.length_drop]
  omega

theorem lastN_of_le {α : Type} (n : Nat) (l : List α) (h : l.length ≤ n) :
    lastN n l = l := by
  simp only [lastN]
  have : l.length - n = 0 := by omega
  simp [this]

theorem lastN_append {α : Type} (n : Nat) (x l : List α) :
    lastN n (x ++ l) = x.drop (x.length + l.length - n) ++ lastN n l := by
  simp only [lastN, List.length_append, List.drop_append_eq_append_drop]
  congr 2
  omega

theorem lastN_lastN_append {α : Type} (n : Nat) (a l : List α) :
    lastN n (lastN n a ++ l) = lastN n (a ++ l) := by
  rw [lastN_append, lastN_append]
  congr 1
  simp only [lastN, List.length_drop, List.drop_drop]
  congr 1
  omega

theorem stepBuf_eq (b : List Json) (e : Json) :
    stepBuf b e = lastN retentionCap (b ++ [e]) := by
  show (if (b ++ [e]).length > retentionCap
      then (b ++ [e]).drop ((b ++ [e]).length - retentionCap) else b ++ [e])
    = lastN retentionCap (b ++ [e])
  by_cases h : (b ++ [e]).length > retentionCap
  · rw [if_pos h]
    rfl
  · rw [if_neg h]
    exact (lastN_of_le _ _ (by omega)).symm

theorem foldl_stepBuf (l : List Json) :
    ∀ a : List Json,
      l.foldl stepBuf (lastN retentionCap a) = lastN retentionCap (a ++ l) := by
  induction l with
  | nil => intro a; simp
  | cons e rest ih =>
      intro a
      simp only [List.foldl_cons]
      rw [stepBuf_eq, lastN_lastN_append]
      have h2 := ih (a ++ [e])
      simpa using h2

theorem foldl_stepBuf_nil (l : List Json) :
    l.foldl stepBuf [] = lastN retentionCap l := by
  have h := foldl_stepBuf l []
  simpa [lastN] using h

/-- The bucket stored for one category, defaulting to empty. -/
def bucketOf (events : SDict (List Json)) (cat : String) : List Json :=
  (slookup events cat).getD []

/-- The subsequence of an inbound prefix that the richer listener records
under one category, in arrival order. -/
def eventsOfCat (frames : List Json) (cat : String) : List Json :=
  frames.filter (fun g => eventCategory g = some cat)

theorem bucketOf_cdp_listener_step (s : ServerState) (g : Json) (cat : String) :
    bucketOf (cdp_listener_step s g).events cat =
      if eventCategory g = some cat then stepBuf (bucketOf s.events cat) g
      else bucketOf s.events cat := by
  cases hr : routeFrame g with
  | toDemux c =>
      have hcat : eventCategory g = some c := by simp [eventCategory, hr]
      by_cases hc : c = cat
      · subst hc
        simp [cdp_listener_step, hr, hcat, recordEvent, bucketOf, slookup_sset_self]
      · simp [cdp_listener_step, hr, hcat, hc, recordEvent, bucketOf,
          slookup_sset_ne _ _ _ _ (fun h => hc h.symm)]
  | toCorrelator w =>
      have hcat : eventCategory g = none := by simp [eventCategory, hr]
      simp [cdp_listener_step, hr, hcat, bucketOf]
  | droppedNonString =>
      have hcat : eventCategory g = none := by simp [eventCategory, hr]
      simp [cdp_listener_step, hr, hcat, bucketOf]
  | droppedSilent =>
      have hcat : eventCategory g = none := by simp [eventCategory, hr]
      simp [cdp_listener_step, hr, hcat, bucketOf]

theorem bucketOf_cdp_listener (frames : List Json) :
    ∀ (s : ServerState) (cat : String),
    bucketOf (cdp_listener s frames).events cat =
      (eventsOfCat frames cat).foldl stepBuf (bucketOf s.events cat) := by
  induction frames with
  | nil => intro s cat; rfl
  | cons g rest ih =>
      intro s cat
      have h1 : cdp_listener s (g :: rest) = cdp_listener (cdp_listener_step s g) rest := rfl
      rw [h1, ih]
      by_cases hc : eventCategory g = some cat
      · simp [eventsOfCat, List.filter_cons, hc, bucketOf_cdp_listener_step, ih]
      · simp [eventsOfCat, List.filter_cons, hc, bucketOf_cdp_listener_step, ih]

theorem lookup_setField_self (fs : List (String × Json)) (k : String) (v : Json) :
    (Json.setField fs k v).lookup k = some v := by
  induction fs with
  | nil => simp [Json.setField]
  | cons hd tl ih =>
      obtain ⟨k2, v2⟩ := hd
      by_cases h : k = k2
      · subst h
        simp [Json.setField, List.lookup]
      · have hb : (k == k2) = false := beq_eq_false_iff_ne.mpr h
        simp [Json.setField, List.lookup, h, hb, ih]

theorem lookup_setField_ne (fs : List (String × Json)) (k k2 : String)
    (v : Json) (h : k2 ≠ k) :
    (Json.setField fs k v).lookup k2 = fs.lookup k2 := by
  have hb : (k2 == k) = false := beq_eq_false_iff_ne.mpr h
  induction fs with
  | nil => simp [Json.setField, List.lookup, hb]
  | cons hd tl ih =>
      obtain ⟨k3, v3⟩ := hd
      by_cases hk : k = k3
      · subst hk
        simp [Json.setField, List.lookup, hb]
      · by_cases hk2 : k2 = k3
        · subst hk2
          simp [Json.setField, List.lookup, hk, ih]
        · have hb2 : (k2 == k3) = false := beq_eq_false_iff_ne.mpr hk2
          simp [Json.setField, List.lookup, hk, hb2, ih]

theorem update_respUpdate_status (fs : List (String × Json)) (params : Json) :
    ((Json.obj fs).update (respUpdate params)).getField "status"
      = some (.str "received") := by
  show (Json.updateFields fs (respUpdate params)).lookup "status"
      = some (Json.str "received")
  unfold Json.updateFields respUpdate
  simp only [List.foldl_cons, List.foldl_nil]
  rw [lookup_setField_ne, lookup_setField_ne, lookup_setField_ne,
    lookup_setField_ne, lookup_setField_self]
  all_goals decide

theorem length_dset_of_mem {α : Type} (m : JDict α) (k : Json) (v : α)
    (h : (dlookup m k).isSome = true) : (dset m k v).length = m.length := by
  induction m with
  | nil => simp [dlookup] at h
  | cons hd tl ih =>
      obtain ⟨k2, v2⟩ := hd
      by_cases hk : k = k2
      · simp [dset, hk]
      · simp only [dlookup, if_neg hk] at h
        simp [dset, hk, ih h]

/-- C1: each sendCommand call resolves with exactly the result or error of
the inbound frame whose identifier equals the identifier that call
allocated, never with a frame belonging to another call.  Part one:
consecutive allocations of the global counter yield pairwise distinct
identifiers.  Part two: for any interleaving of inbound response frames in
which exactly one frame carries the identifier of the call, the call (in
either variant) resolves with the settlement of exactly that frame. -/
theorem spec_C1_correlation :
    (∀ c n : Nat, (allocIds c n).Nodup) ∧
    (∀ (c : Nat) (frames : List Json) (i : Nat) (f : Json),
      f ∈ frames →
      f.getField "id" = some (.num i) →
      (∀ g ∈ frames, g.getField "id" = some (.num i) → g = f) →
      resolveCommand (cdp_listener (initState c) frames).responses i
          = some (settleResponse f) ∧
      (dlookup (listen_for_messages [] frames) (.num i)).map settleSimple
          = some (settleSimple f)) := by
  constructor
  · intro c n
    have hinj : Function.Injective (fun k : Nat => c + k + 1) := by
      intro a b hab
      dsimp only at hab
      omega
    exact List.Nodup.map hinj (List.nodup_range n)
  · intro c frames i f hmem hf huniq
    constructor
    · unfold resolveCommand
      rw [dlookup_cdp_listener]
      rw [show dlookup (initState c).responses (.num i) = none from rfl]
      rw [foldl_respChoice_eq (.num i) frames none f hmem hf huniq]
      rfl
    · rw [dlookup_listen_for_messages]
      rw [show dlookup ([] : JDict Json) (.num i) = none from rfl]
      rw [foldl_respChoice_eq (.num i) frames none f hmem hf huniq]
      rfl

/-- The response frame for the command with identifier 1 in the C1 witness
scenario. -/
def c1FrameA : Json := .obj [("id", .num 1), ("result", .obj [("x", .num 7)])]

/-- The response frame for the command with identifier 2 in the C1 witness
scenario; it arrives first, out of send order. -/
def c1FrameB : Json :=
  .obj [("id", .num 2), ("error", .obj [("message", .str "denied")])]

/-- C1 witness: two commands allocated identifiers 1 and 2, responses
arriving out of order; the call with identifier 1 resolves with the
settlement of exactly its own frame in both variants. -/
theorem spec_C1_correlation_witness :
    c1FrameA ∈ [c1FrameB, c1FrameA] ∧
    c1FrameA.getField "id" = some (.num 1) ∧
    (∀ g ∈ [c1FrameB, c1FrameA],
      g.getField "id" = some (.num 1) → g = c1FrameA) ∧
    resolveCommand (cdp_listener (initState 0) [c1FrameB, c1FrameA]).responses 1
        = some (settleResponse c1FrameA) ∧
    (dlookup (listen_for_messages [] [c1FrameB, c1FrameA]) (.num 1)).map
        settleSimple = some (settleSimple c1FrameA) := by
  refine ⟨by decide, by decide, by decide, ?_⟩
  exact spec_C1_correlation.2 0 [c1FrameB, c1FrameA] 1 c1FrameA
    (by decide) (by decide) (by decide)

/-- C2: evaluation of the code at the failing input.  With one command
outstanding (identifier 1, no response arrived), the shutdown sequence of
app_lifespan cancels the listener task and closes the websocket but leaves
the response map untouched; since the waiting loop of send_cdp_command exits
only when its identifier appears in that map, the pending call is still
suspended after any number of polling iterations, and is never resolved with
a connection-closed failure. -/
theorem spec_C2_shutdown_leaves_pending :
    ∀ fuel k : Nat,
      (app_lifespan_shutdown pendingLifespanState).listenerRunning = false ∧
      (app_lifespan_shutdown pendingLifespanState).wsOpen = false ∧
      (app_lifespan_shutdown pendingLifespanState).st.responses
          = pendingLifespanState.st.responses ∧
      pollLoop (fun _ => (app_lifespan_shutdown pendingLifespanState).st.responses)
          1 k fuel = none := by
  intro fuel k
  refine ⟨rfl, rfl, rfl, ?_⟩
  exact pollLoop_none_of_absent
    (fun _ => (app_lifespan_shutdown pendingLifespanState).st.responses) 1
    (fun _ => rfl) fuel k

/-- A response frame carrying an error object, as sent by the remote
endpoint when it rejects the command with identifier 1. -/
def c3ErrFrame : Json :=
  .obj [("id", .num 1), ("error", .obj [("message", .str "boom")])]

/-- C3 counterexample: the claim asserts that in both variants a matching
frame carrying an error object makes the call fail with a RemoteError.  In
the simple variant the error key is never inspected: with the error frame
stored under identifier 1, the call returns a success carrying the empty
result payload.  The richer variant does fail with the RemoteError. -/
theorem spec_C3_counterexample :
    simpleWait (fun _ => [(.num 1, c3ErrFrame)]) 1 = .ok Json.emptyObj ∧
    (∀ msg, simpleWait (fun _ => [(.num 1, c3ErrFrame)]) 1 ≠ .error msg) ∧
    settleResponse c3ErrFrame = .remoteError (.str "boom") := by
  refine ⟨rfl, ?_, rfl⟩
  intro msg h
  exact Except.noConfusion h

/-- C3 amended: in the richer variant a matching frame with an error object
fails the call with a RemoteError carrying the remote message, and a frame
without one succeeds with the result payload (empty when absent); in the
simple variant the error object is ignored and the call succeeds with the
result payload (empty when absent) regardless. -/
theorem spec_C3_resolution_policy :
    (∀ (resp e m : Json),
      resp.getField "error" = some e →
      e.getField "message" = some m →
      settleResponse resp = .remoteError m) ∧
    (∀ resp : Json, resp.getField "error" = none →
      settleResponse resp = .ok (resp.getD "result" Json.emptyObj)) ∧
    (∀ resp : Json, settleSimple resp = resp.getD "result" Json.emptyObj) := by
  refine ⟨?_, ?_, fun resp => rfl⟩
  · intro resp e m he hm
    simp [settleResponse, he, hm]
  · intro resp he
    simp [settleResponse, he]

/-- C3 witness: the amended resolution policy applied to the concrete error
frame and to a concrete error-free frame. -/
theorem spec_C3_resolution_policy_witness :
    (c3ErrFrame.getField "error" = some (Json.obj [("message", Json.str "boom")]) ∧
     (Json.obj [("message", Json.str "boom")]).getField "message"
        = some (Json.str "boom") ∧
     settleResponse c3ErrFrame = .remoteError (.str "boom")) ∧
    (c1FrameA.getField "error" = none ∧
     settleResponse c1FrameA = .ok (c1FrameA.getD "result" Json.emptyObj)) := by
  refine ⟨⟨by decide, by decide, ?_⟩, ⟨by decide, ?_⟩⟩
  · exact spec_C3_resolution_policy.1 c3ErrFrame
      (Json.obj [("message", Json.str "boom")]) (Json.str "boom")
      (by decide) (by decide)
  · exact spec_C3_resolution_policy.2.1 c1FrameA (by decide)

/-- C4: after the richer listener processes any inbound prefix, the buffer
of every event category is exactly the last 1000 recorded events of that
category in arrival order (hence it holds at most 1000 records), and one
step on a full buffer appends the new record and removes exactly the oldest
one. -/
theorem spec_C4_retention :
    (∀ (c : Nat) (frames : List Json) (cat : String),
      bucketOf (cdp_listener (initState c) frames).events cat
          = lastN retentionCap (eventsOfCat frames cat) ∧
      (bucketOf (cdp_listener (initState c) frames).events cat).length
          ≤ retentionCap) ∧
    (∀ (b : List Json) (e : Json), b.length = retentionCap →
      stepBuf b e = b.drop 1 ++ [e]) := by
  constructor
  · intro c frames cat
    have h1 : bucketOf (cdp_listener (initState c) frames).events cat
        = lastN retentionCap (eventsOfCat frames cat) := by
      rw [bucketOf_cdp_listener]
      rw [show bucketOf (initState c).events cat = [] from rfl]
      exact foldl_stepBuf_nil (eventsOfCat frames cat)
    exact ⟨h1, by rw [h1]; exact lastN_length_le _ _⟩
  · intro b e hb
    have hcap : retentionCap = 1000 := rfl
    rw [stepBuf_eq]
    show (b ++ [e]).drop ((b ++ [e]).length - retentionCap) = b.drop 1 ++ [e]
    have h1 : (b ++ [e]).length - retentionCap = 1 := by
      simp only [List.length_append, List.length_singleton]
      omega
    rw [h1, List.drop_append_eq_append_drop]
    have h2 : 1 - b.length = 0 := by omega
    rw [h2, List.drop_zero]

/-- C4 witness: one step on a concrete full buffer of 1000 records evicts
exactly the oldest record. -/
theorem spec_C4_retention_witness :
    (List.replicate retentionCap Json.null).length = retentionCap ∧
    stepBuf (List.replicate retentionCap Json.null) Json.null
      = (List.replicate retentionCap Json.null).drop 1 ++ [Json.null] :=
  ⟨List.length_replicate _ _,
   spec_C4_retention.2 _ _ (List.length_replicate _ _)⟩

/-- A concrete request-sent event with request identifier R1. -/
def c5ReqEvent : Json := .obj [("method", .str "Network.requestWillBeSent"),
  ("params", .obj [("requestId", .str "R1"),
    ("request", .obj [("url", .str "http://x"), ("method", .str "GET"),
      ("headers", .obj [])]),
    ("timestamp", .num 5), ("type", .str "XHR")])]

/-- The params object of the concrete request-sent event. -/
def c5ReqParams : Json := .obj [("requestId", .str "R1"),
  ("request", .obj [("url", .str "http://x"), ("method", .str "GET"),
    ("headers", .obj [])]),
  ("timestamp", .num 5), ("type", .str "XHR")]

/-- A concrete response-received event with request identifier R1. -/
def c5RespEvent : Json := .obj [("method", .str "Network.responseReceived"),
  ("params", .obj [("requestId", .str "R1"),
    ("response", .obj [("status", .num 200), ("statusText", .str "OK"),
      ("mimeType", .str "text/html"), ("headers", .obj [])])])]

/-- The merged record produced for R1 by request followed by response. -/
def c5MergedRecord : Json := .obj
  [("requestId", .str "R1"), ("url", .str "http://x"), ("method", .str "GET"),
   ("headers", .obj []), ("timestamp", .num 5), ("status", .str "received"),
   ("type", .str "XHR"), ("statusCode", .num 200), ("statusText", .str "OK"),
   ("mimeType", .str "text/html"), ("responseHeaders", .obj [])]

/-- The pending record produced for R1 by a lone request-sent event. -/
def c5PendingRecord : Json := .obj
  [("requestId", .str "R1"), ("url", .str "http://x"), ("method", .str "GET"),
   ("headers", .obj []), ("timestamp", .num 5), ("status", .str "pending"),
   ("type", .str "XHR")]

/-- C5: the network-request query is a pure fold over the recorded Network
events.  A request-sent event with a truthy request identifier stores one
pending record under that identifier; a response-received event whose
identifier is recorded merges the response fields into that single record
(map size unchanged) and any object record so merged reads status received;
a response-received event whose identifier is not recorded changes nothing
and in particular does not fail; and on the concrete scenarios
request-then-response yields one received record, a lone response yields an
empty view, and a lone request yields one pending record. -/
theorem spec_C5_network_merge :
    (∀ (m : JDict Json) (e params rid : Json),
      methodIs e "Network.requestWillBeSent" = true →
      e.getD "params" Json.emptyObj = params →
      params.getD "requestId" .null = rid →
      rid.truthy = true →
      dlookup (netStep m e) rid = some (reqRecord params rid) ∧
      (reqRecord params rid).getField "status" = some (.str "pending")) ∧
    (∀ (m : JDict Json) (e params rid r : Json),
      methodIs e "Network.responseReceived" = true →
      e.getD "params" Json.emptyObj = params →
      params.getD "requestId" .null = rid →
      rid.truthy = true →
      dlookup m rid = some r →
      dlookup (netStep m e) rid = some (r.update (respUpdate params)) ∧
      (netStep m e).length = m.length) ∧
    (∀ (fs : List (String × Json)) (params : Json),
      ((Json.obj fs).update (respUpdate params)).getField "status"
          = some (.str "received")) ∧
    (∀ (m : JDict Json) (e rid : Json),
      methodIs e "Network.responseReceived" = true →
      (e.getD "params" Json.emptyObj).getD "requestId" .null = rid →
      dlookup m rid = none →
      netStep m e = m) ∧
    (get_network_requests [("Network", [c5ReqEvent, c5RespEvent])]
        = .obj [("requests", .arr [c5MergedRecord])] ∧
     get_network_requests [("Network", [c5RespEvent])]
        = .obj [("requests", .arr [])] ∧
     get_network_requests [("Network", [c5ReqEvent])]
        = .obj [("requests", .arr [c5PendingRecord])]) := by
  refine ⟨?_, ?_, update_respUpdate_status, ?_, rfl, rfl, rfl⟩
  · intro m e params rid hmeth hparams hrid htruthy
    have h1 : netStep m e = dset m rid (reqRecord params rid) := by
      simp [netStep, hmeth, hparams, hrid, htruthy]
    rw [h1, dlookup_dset_self]
    refine ⟨rfl, ?_⟩
    simp [reqRecord, Json.getField, List.lookup]
  · intro m e params rid r hmeth hparams hrid htruthy hfound
    have hp := of_decide_eq_true hmeth
    have hne : methodIs e "Network.requestWillBeSent" = false := by
      unfold methodIs
      rw [hp]
      decide
    have h1 : netStep m e = dset m rid (r.update (respUpdate params)) := by
      simp [netStep, hne, hmeth, hparams, hrid, htruthy, hfound]
    rw [h1, dlookup_dset_self]
    refine ⟨rfl, ?_⟩
    exact length_dset_of_mem m rid _ (by rw [hfound]; rfl)
  · intro m e rid hmeth hrid hnone
    have hp := of_decide_eq_true hmeth
    have hne : methodIs e "Network.requestWillBeSent" = false := by
      unfold methodIs
      rw [hp]
      decide
    by_cases ht : rid.truthy
    · simp [netStep, hne, hmeth, hrid, ht, hnone]
    · simp [netStep, hne, hmeth, hrid, ht]

/-- C5 witness: the merge-step properties applied at concrete inputs: the
concrete request-sent event inserted into an empty map, and the concrete
response-received event applied to the resulting map. -/
theorem spec_C5_network_merge_witness :
    (methodIs c5ReqEvent "Network.requestWillBeSent" = true ∧
     c5ReqEvent.getD "params" Json.emptyObj = c5ReqParams ∧
     c5ReqParams.getD "requestId" .null = Json.str "R1" ∧
     (Json.str "R1").truthy = true ∧
     dlookup (netStep [] c5ReqEvent) (Json.str "R1")
        = some (reqRecord c5ReqParams (Json.str "R1")) ∧
     (reqRecord c5ReqParams (Json.str "R1")).getField "status"
        = some (.str "pending")) ∧
    (dlookup [] (Json.str "R1") = (none : Option Json) ∧
     netStep [] c5RespEvent = []) := by
  refine ⟨⟨by decide, by decide, by decide, by decide, ?_⟩, ⟨rfl, ?_⟩⟩
  · exact (spec_C5_network_merge.1 [] c5ReqEvent c5ReqParams (Json.str "R1")
      (by decide) (by decide) (by decide) (by decide))
  · exact spec_C5_network_merge.2.2.2.1 [] c5RespEvent (Json.str "R1")
      (by decide) (by decide) rfl

/-- The command resolutions driving the C6 failing run of get_tab_content:
the attach succeeds and returns session identifier S, and the first
session-scoped body command (DOM.getDocument) raises a remote error. -/
def c6FailingOracle : Nat → CmdResult := fun k =>
  if k = 0 then .ok (.obj [("sessionId", .str "S")]) else .err "CDP Error: boom"

/-- C6: evaluation of the code at the failing input.  When the attach
succeeds and a body command then raises, get_tab_content returns the error
payload having sent only the attach and the failing body command: no
Target.detachFromTarget command is ever issued, so the failure leaks the
attached session. -/
theorem spec_C6_no_detach_on_failing_body :
    ((get_tab_content_trace c6FailingOracle "T1").1.map Prod.fst
        = ["Target.attachToTarget", "DOM.getDocument"]) ∧
    (((get_tab_content_trace c6FailingOracle "T1").1.map Prod.fst).contains
        "Target.detachFromTarget" = false) ∧
    (get_tab_content_trace c6FailingOracle "T1").2
        = errOut "Error communicating with Chrome for tab T1: CDP Error: boom" := by
  refine ⟨rfl, ?_, rfl⟩
  decide

/-- The event frame used against the C7 routing claim: a console event
carrying a method and no identifier. -/
def c7EventFrame : Json :=
  .obj [("method", .str "Console.messageAdded"), ("params", .obj [])]

/-- A decoded frame with neither an identifier nor a method. -/
def c7NoShapeFrame : Json := .obj [("foo", .num 1)]

/-- C7 counterexample: the claim asserts that in both variants every frame
is routed to exactly one of correlator and demultiplexer, with
neither-shaped frames logged and dropped.  In the simple variant the event
frame is routed to neither (the listener stores nothing for it, and there is
no demultiplexer at all), and in the richer variant a neither-shaped frame
is dropped without any log call. -/
theorem spec_C7_counterexample :
    simpleRouteFrame c7EventFrame = .droppedSilent ∧
    listen_step [] c7EventFrame = [] ∧
    routeFrame c7NoShapeFrame = .droppedSilent ∧
    serverFrameLogCount c7NoShapeFrame = 0 :=
  ⟨rfl, rfl, rfl, rfl⟩

/-- C7 amended: in the richer variant every decoded frame is routed to
exactly one destination: the correlator precisely when it has an identifier,
the demultiplexer (under the split category) precisely when it has no
identifier and a string method, and otherwise it is dropped, without any log
call when it has neither key.  In the simple variant only frames with an
identifier are routed (to the correlator); everything else is dropped and no
frame ever reaches a demultiplexer. -/
theorem spec_C7_routing :
    ∀ data : Json,
      (∀ w, routeFrame data = .toCorrelator w ↔ data.getField "id" = some w) ∧
      (∀ m, data.getField "id" = none →
        data.getField "method" = some (.str m) →
        routeFrame data = .toDemux (splitCategory m)) ∧
      (data.getField "id" = none → data.getField "method" = none →
        routeFrame data = .droppedSilent ∧ serverFrameLogCount data = 0) ∧
      (∀ w, simpleRouteFrame data = .toCorrelator w ↔
        data.getField "id" = some w) ∧
      (∀ cat, simpleRouteFrame data ≠ .toDemux cat) := by
  intro data
  refine ⟨?_, ?_, ?_, ?_, ?_⟩
  · intro w
    cases hid : data.getField "id" with
    | some u =>
        rw [routeFrame_of_id data u hid]
        constructor
        · intro h
          cases h
          rfl
        · intro h
          cases h
          rfl
    | none =>
        constructor
        · intro h
          cases hm : data.getField "method" with
          | none => simp [routeFrame, Json.hasKey, hid, hm] at h
          | some mv => cases mv <;> simp [routeFrame, Json.hasKey, hid, hm] at h
        · intro h
          cases h
  · intro m hid hm
    simp [routeFrame, Json.hasKey, hid, hm]
  · intro hid hm
    constructor
    · simp [routeFrame, Json.hasKey, hid, hm]
    · simp [serverFrameLogCount, routeFrame, Json.hasKey, hid, hm]
  · intro w
    cases hid : data.getField "id" with
    | some u =>
        have hk : data.hasKey "id" = true := by simp [Json.hasKey, hid]
        simp [simpleRouteFrame, hk, Json.getD, hid]
    | none =>
        have hk : data.hasKey "id" = false := by simp [Json.hasKey, hid]
        simp [simpleRouteFrame, hk, hid]
  · intro cat h
    by_cases hk : data.hasKey "id" = true
    · simp [simpleRouteFrame, hk] at h
    · simp [simpleRouteFrame, hk] at h

/-- C7 witness: the amended routing applied at concrete frames of each
shape. -/
theorem spec_C7_routing_witness :
    (c1FrameA.getField "id" = some (.num 1) ∧
     routeFrame c1FrameA = .toCorrelator (.num 1)) ∧
    (c7EventFrame.getField "id" = none ∧
     c7EventFrame.getField "method" = some (.str "Console.messageAdded") ∧
     routeFrame c7EventFrame = .toDemux (splitCategory "Console.messageAdded")) ∧
    (c7NoShapeFrame.getField "id" = none ∧
     c7NoShapeFrame.getField "method" = none ∧
     routeFrame c7NoShapeFrame = .droppedSilent ∧
     serverFrameLogCount c7NoShapeFrame = 0) := by
  refine ⟨⟨by decide, ?_⟩, ⟨by decide, by decide, ?_⟩, ⟨by decide, by decide, ?_⟩⟩
  · exact ((spec_C7_routing c1FrameA).1 (.num 1)).mpr (by decide)
  · exact (spec_C7_routing c7EventFrame).2.1 "Console.messageAdded"
      (by decide) (by decide)
  · exact (spec_C7_routing c7NoShapeFrame).2.2.1 (by decide) (by decide)

/-- C8: when no response with the matching identifier ever arrives, the
simple variant fails with TimeoutError after its bounded poll of 100
iterations, while the richer variant is still waiting after every number of
polling iterations (its loop has no bound). -/
theorem spec_C8_timeout :
    ∀ (mAt : Nat → JDict Json) (id : Nat),
      (∀ k, dlookup (mAt k) (.num id) = none) →
      simpleWait mAt id = .error "TimeoutError" ∧
      (∀ fuel k, pollLoop mAt id k fuel = none) := by
  intro mAt id h
  have hp := pollLoop_none_of_absent mAt id h
  constructor
  · unfold simpleWait
    rw [hp 100 0]
  · exact hp

/-- C8 witness: with an always-empty response map, the simple variant
resolves to TimeoutError and the richer variant never resolves. -/
theorem spec_C8_timeout_witness :
    (∀ k : Nat, dlookup (([] : JDict Json)) (.num 1) = none) ∧
    (simpleWait (fun _ => []) 1 = .error "TimeoutError" ∧
     ∀ fuel k, pollLoop (fun _ => []) 1 k fuel = none) :=
  ⟨fun _ => rfl, spec_C8_timeout (fun _ => []) 1 (fun _ => rfl)⟩

/-- The inbound response frame of the C9 scenario, carrying identifier 1
and one page target. -/
def c9Inbound : Json := .obj [("id", .num 1), ("result", .obj [("targetInfos",
  .arr [.obj [("targetId", .str "T1"), ("type", .str "page"),
              ("title", .str "A"), ("url", .str "http://x")]])])]

/-- The tab list the claim asserts for the C9 scenario. -/
def c9ClaimedTabs : Json := .obj [("tabs", .arr
  [.obj [("id", .str "T1"), ("title", .str "A"), ("url", .str "http://x")]])]

/-- The tab list the richer variant actually produces for the C9 scenario:
each record additionally carries the type field. -/
def c9ServerTabs : Json := .obj [("tabs", .arr
  [.obj [("id", .str "T1"), ("title", .str "A"), ("url", .str "http://x"),
         ("type", .str "page")]])]

/-- C9 counterexample: on the scenario response, the richer-variant
list_tabs produces records carrying an extra type field, so its
caller-visible list is not exactly the claimed one. -/
theorem spec_C9_counterexample :
    list_tabs_server [c9Inbound] = some c9ServerTabs ∧
    list_tabs_server [c9Inbound] ≠ some c9ClaimedTabs := by
  refine ⟨rfl, ?_⟩
  decide

/-- C9 amended: on the scenario response, the simple variant produces
exactly the claimed list, and the richer variant produces the same records
with an additional type field valued page. -/
theorem spec_C9_list_tabs :
    list_tabs_simple [c9Inbound] = some c9ClaimedTabs ∧
    list_tabs_server [c9Inbound] = some c9ServerTabs :=
  ⟨rfl, rfl⟩

/-- C10: the query operations get_console_logs and get_network_requests
leave the whole module state (event store, response map, message counter)
unchanged, and two consecutive calls over the unchanged store return equal
results. -/
theorem spec_C10_queries_pure :
    ∀ s : ServerState,
      (get_console_logs_call s).2 = s ∧
      (get_network_requests_call s).2 = s ∧
      (get_console_logs_call s).2.events = s.events ∧
      (get_console_logs_call s).2.responses = s.responses ∧
      (get_console_logs_call s).2.msgId = s.msgId ∧
      (get_network_requests_call s).2.events = s.events ∧
      (get_network_requests_call s).2.responses = s.responses ∧
      (get_network_requests_call s).2.msgId = s.msgId ∧
      (get_console_logs_call ((get_console_logs_call s).2)).1
          = (get_console_logs_call s).1 ∧
      (get_network_requests_call ((get_network_requests_call s).2)).1
          = (get_network_requests_call s).1 :=
  fun s => ⟨rfl, rfl, rfl, rfl, rfl, rfl, rfl, rfl, rfl, rfl⟩
